import Mathlib

/-!
Verification of the content-control resolution and structure-parsing pipeline of the
sharedo-docx-html-converter repository.

The development is a shallow embedding of `src/app/content_resolver.py`
(class `ContentControlResolver`) and `src/app/structure_parser.py`
(class `AdvancedStructureParser`).  Pure Python functions become Lean functions;
the mutable resolver object becomes explicit state passing over `RState`;
filesystem and external-library effects (path lookup, the DOCX converter,
BeautifulSoup HTML parsing) become an explicit environment `Env`.
Python's `Optional` return values become `Option`.

Recursion that the Python code bounds by a depth guard is embedded with an explicit
fuel parameter (structural recursion on the fuel); the termination theorems show that
a fuel of `max_depth + 2` is always sufficient, which is exactly the statement that the
source's guarded recursion terminates.
-/

/-! ## Character/string helpers

Python regular-expression scanning is embedded as executable scanners over `List Char`.
All the patterns in `ContentControlResolver.PATTERNS` have the form
`pre (group of chars excluding a closing delimiter) post` with `re.IGNORECASE`,
so one generic matcher covers them.  `re.findall` scans left to right, emits
non-overlapping matches, and on a failed match at a position retries at the next
position; `scanAll` does the same.
-/

/-- Case-insensitive prefix stripping: if `l` starts with `pre` (comparing
lowercased characters, like `re.IGNORECASE`), return the rest of `l`. -/
def stripPrefixCI : List Char → List Char → Option (List Char)
  | [], l => some l
  | _ :: _, [] => none
  | p :: ps, c :: cs => if c.toLower = p.toLower then stripPrefixCI ps cs else none

/-- The open-brace character (written via its code so it never appears literally). -/
def obr : Char := '\x7b'

/-- The close-brace character. -/
def cbr : Char := '\x7d'

/-- Generic matcher for a pattern `pre([^bad]+)post` at the head of `l`
(case-insensitive, greedy character class, as in Python `re`).
Returns the captured group and the remainder after the whole match. -/
def matchDelim (pre : List Char) (bad : Char) (post : List Char) (l : List Char) :
    Option (List Char × List Char) :=
  match stripPrefixCI pre l with
  | none => none
  | some r =>
    let g := r.takeWhile (fun c => c ≠ bad)
    if g.isEmpty then none
    else
      match stripPrefixCI post (r.drop g.length) with
      | none => none
      | some r2 => some (g, r2)

/-- Matcher for `content_block`: the pattern is `\x7b\x7b(dc-[^\x7d]+)\x7d\x7d`, i.e. the
captured group itself must begin with `dc-` (case-insensitively); the group text keeps
the original characters of the input, exactly as `re.findall` returns the matched text. -/
def matchContentBlock (l : List Char) : Option (List Char × List Char) :=
  match stripPrefixCI [obr, obr] l with
  | none => none
  | some r =>
    match r with
    | c1 :: c2 :: c3 :: rest =>
      if c1.toLower = 'd' ∧ c2.toLower = 'c' ∧ c3 = '-' then
        let g := rest.takeWhile (fun c => c ≠ cbr)
        if g.isEmpty then none
        else
          match stripPrefixCI [cbr, cbr] (rest.drop g.length) with
          | none => none
          | some r2 => some (c1 :: c2 :: c3 :: g, r2)
      else none
    | _ => none

/-- Left-to-right non-overlapping scan with matcher `f`, collecting the captured groups.
The fuel is initialised to the input length; every step consumes at least one character
(our matchers always return a strictly shorter remainder), so the fuel never runs out
and the scan agrees with Python `re.findall`. -/
def scanAllAux (f : List Char → Option (List Char × List Char)) :
    Nat → List Char → List String
  | 0, _ => []
  | _, [] => []
  | n + 1, c :: cs =>
    match f (c :: cs) with
    | some (g, r) => g.asString :: scanAllAux f n r
    | none => scanAllAux f n cs

/-- Run a scanner over a string. -/
def scanAll (f : List Char → Option (List Char × List Char)) (s : String) : List String :=
  scanAllAux f s.toList.length s.toList

/-- `PATTERNS['double_curly'] = \x7b\x7bcontent:([^\x7d]+)\x7d\x7d` (IGNORECASE). -/
def scan_double_curly (s : String) : List String :=
  scanAll (matchDelim [obr, obr, 'c', 'o', 'n', 't', 'e', 'n', 't', ':'] cbr [cbr, cbr]) s

/-- `PATTERNS['content_block'] = \x7b\x7b(dc-[^\x7d]+)\x7d\x7d` (IGNORECASE). -/
def scan_content_block (s : String) : List String :=
  scanAll matchContentBlock s

/-- `PATTERNS['include_directive'] = @include\(([^)]+)\)` (IGNORECASE). -/
def scan_include_directive (s : String) : List String :=
  scanAll (matchDelim "@include(".toList ')' [')']) s

/-- `PATTERNS['sharedo_content'] = [content:([^\]]+)\]` (IGNORECASE, bracket form). -/
def scan_sharedo_content (s : String) : List String :=
  scanAll (matchDelim "[content:".toList ']' [']']) s

/-- Models the BeautifulSoup pass of `_extract_references` (content_resolver.py lines
152-164): `soup.find_all(attrs=...)` over elements with a `data-content-control`
attribute, in document order, keeping only non-empty values (`if ref:`).
BeautifulSoup is an external library; we model its attribute lookup as a scan of the
serialized attribute syntax `data-content-control="..."`. -/
def scan_data_attribute (s : String) : List String :=
  scanAll (matchDelim "data-content-control=\"".toList '"' ['"']) s

/-- The reference kinds produced by `_extract_references`.  The Python code uses the
pattern-name strings; `word_content_control` is skipped by the extractor
(`continue`, line 146) and therefore never reaches the resolver, so it is omitted. -/
inductive RefType where
  | double_curly
  | content_block
  | include_directive
  | sharedo_content
  | data_attribute
deriving DecidableEq, Repr

/-- The pattern-name string of a reference kind, as used in cache keys and in the
`data-type` attribute of embedded wrappers. -/
def RefType.name : RefType → String
  | .double_curly => "double_curly"
  | .content_block => "content_block"
  | .include_directive => "include_directive"
  | .sharedo_content => "sharedo_content"
  | .data_attribute => "data_attribute"

/-- `ContentControlResolver._extract_references` (content_resolver.py lines 129-166).
Empty content yields no references.  Each pattern of `PATTERNS` is scanned over the
whole content in dict order (`double_curly`, `content_block`, `include_directive`,
`sharedo_content`; `word_content_control` is skipped), then, only when the content
contains `<`, elements with a `data-content-control` attribute are appended. -/
def extract_references (content : String) : List (RefType × String) :=
  if content = "" then []
  else
    (scan_double_curly content).map (fun m => (RefType.double_curly, m)) ++
    (scan_content_block content).map (fun m => (RefType.content_block, m)) ++
    (scan_include_directive content).map (fun m => (RefType.include_directive, m)) ++
    (scan_sharedo_content content).map (fun m => (RefType.sharedo_content, m)) ++
    (if content.toList.contains '<' then
      (scan_data_attribute content).map (fun m => (RefType.data_attribute, m))
    else [])

/-! ## Embedding resolved content -/

/-- Case-sensitive prefix test on character lists. -/
def isPrefixOfCl : List Char → List Char → Bool
  | [], _ => true
  | _ :: _, [] => false
  | p :: ps, c :: cs => p = c && isPrefixOfCl ps cs

/-- Left-to-right, non-overlapping replacement of every occurrence of `pat` by `sub`,
the semantics of Python `str.replace`.  Fuel is the input length; each step consumes
at least one character whenever `pat` is non-empty (all call sites pass non-empty
patterns), so the fuel suffices. -/
def replaceCharsAux (pat sub : List Char) : Nat → List Char → List Char
  | 0, l => l
  | _, [] => []
  | n + 1, c :: cs =>
    if isPrefixOfCl pat (c :: cs) then
      sub ++ replaceCharsAux pat sub n ((c :: cs).drop pat.length)
    else c :: replaceCharsAux pat sub n cs

/-- Python `s.replace(pat, sub)` for non-empty `pat` (executable model of the calls in
`_embed_content`; `String.replace` from core is avoided because it does not reduce in
the kernel). -/
def replaceStr (s pat sub : String) : String :=
  if pat.isEmpty then s
  else (replaceCharsAux pat.toList sub.toList s.toList.length s.toList).asString

/-- The wrapper markup built by `_embed_content` (content_resolver.py lines 350-355):
a `div.resolved-content` carrying `data-source` (the reference identifier) and
`data-type` (the reference kind) around the resolved fragment, with the exact
whitespace of the Python triple-quoted f-string. -/
def wrapped_content (ref_path : String) (ref_type : RefType) (content : String) : String :=
  "\n        <div class=\"resolved-content\" data-source=\"" ++ ref_path ++
    "\" data-type=\"" ++ ref_type.name ++ "\">\n            " ++ content ++
    "\n        </div>\n        "

/-- The replacement pattern `_embed_content` builds for each reference kind
(content_resolver.py lines 357-372).  Note the `double_curly` case: the code builds
`f'\x7b\x7b\x7b\x7b\x7bref_path\x7d\x7d\x7d\x7d\x7d'`, i.e. the literal text
`\x7b\x7bref_path\x7d\x7d` — it does NOT restore the `content:` prefix of the matched
syntax `\x7b\x7bcontent:ref_path\x7d\x7d`. -/
def embed_pattern (ref_type : RefType) (ref_path : String) : String :=
  match ref_type with
  | .double_curly => "\x7b\x7b" ++ ref_path ++ "\x7d\x7d"
  | .content_block => "\x7b\x7b" ++ ref_path ++ "\x7d\x7d"
  | .include_directive => "@include(" ++ ref_path ++ ")"
  | .sharedo_content => "[content:" ++ ref_path ++ "]"
  | .data_attribute => ""

/-- `ContentControlResolver._embed_content` (content_resolver.py lines 336-385), minus
the `data_attribute` branch, which rewrites the parsed HTML through BeautifulSoup and
is supplied by the environment (`Env.replace_data_attribute`). -/
def embed_content_text (html : String) (ref_type : RefType) (ref_path content : String) :
    String :=
  replaceStr html (embed_pattern ref_type ref_path) (wrapped_content ref_path ref_type content)

/-! ## Resolver state and environment -/

/-- The lifetime statistics dictionary `self.statistics` (content_resolver.py
lines 56-62). -/
structure Stats where
  cache_hits : Nat
  cache_misses : Nat
  total_resolutions : Nat
  circular_references : Nat
  failed_resolutions : Nat
deriving DecidableEq, Repr

/-- The mutable fields of a `ContentControlResolver` instance: the cache (a dict,
modelled as an association list), the dependency graph (dict of sets, modelled as an
association list of lists), the resolution stack (top of stack at the head; Python
appends and pops at the tail of the list) and the statistics. -/
structure RState where
  cache : List (String × String)
  dependency_graph : List (String × List String)
  resolution_stack : List String
  stats : Stats
deriving DecidableEq, Repr

/-- Dict lookup on an association list. -/
def alookup {β : Type} (k : String) : List (String × β) → Option β
  | [] => none
  | (k', v) :: t => if k' = k then some v else alookup k t

/-- Dict assignment `d[k] = v` on an association list (overwrites an existing key). -/
def ainsert (k : String) (v : String) : List (String × String) → List (String × String)
  | [] => [(k, v)]
  | (k', v') :: t => if k' = k then (k, v) :: t else (k', v') :: ainsert k v t

/-- `self.dependency_graph[doc_path].add(ref_path)` on a `defaultdict(set)`:
insert `ref` into the set associated with `doc`, creating the entry if absent. -/
def dep_add (doc ref : String) : List (String × List String) → List (String × List String)
  | [] => [(doc, [ref])]
  | (d, rs) :: t =>
    if d = doc then (d, if ref ∈ rs then rs else ref :: rs) :: t
    else (d, rs) :: dep_add doc ref t

/-- The target kinds `_load_and_convert_document` dispatches on via the file suffix. -/
inductive FileKind where
  | docx
  | html
  | other
deriving DecidableEq, Repr

/-- The external world of the resolver: configuration plus everything that lives
outside the Python class (filesystem, the DOCX converter, BeautifulSoup).
- `max_depth` is the constructor argument (default 5).
- `resolve_path` models `_resolve_path` (lines 387-429): the filesystem search
  returning an existing path, or `none`.
- `file_kind` models `full_path.suffix.lower()` dispatch.
- `docx_fragment` models lines 233-252 for a `.docx` target: converter invocation and
  body-content extraction; `none` means the converter did not succeed (or raised,
  which the enclosing `except` turns into `None`).
- `read_file` models reading an `.html`/`.htm` file (`none` = I/O error, caught).
- `find_content_block` models the filesystem search `_find_content_block_file`
  (lines 431-455).
- `replace_data_attribute html ref wrapped` models the BeautifulSoup branch of
  `_embed_content` (lines 374-383). -/
structure Env where
  max_depth : Nat
  resolve_path : String → Option String
  file_kind : String → FileKind
  docx_fragment : String → Option String
  read_file : String → Option String
  find_content_block : String → Option String
  replace_data_attribute : String → String → String → String

/-- `_embed_content` including the `data_attribute` branch. -/
def embed_content (env : Env) (html : String) (ref_type : RefType) (ref_path content : String) :
    String :=
  match ref_type with
  | .data_attribute =>
    env.replace_data_attribute html ref_path (wrapped_content ref_path ref_type content)
  | _ => embed_content_text html ref_type ref_path content

/-- `_generate_cache_key` (lines 457-469) computes `md5(f"(kind):(path)")`.  The digest
is used only as an opaque deterministic key, so the embedding uses the pre-image string
`kind ++ ":" ++ path` itself as the key. -/
def generate_cache_key (ref_type : RefType) (ref_path : String) : String :=
  ref_type.name ++ ":" ++ ref_path

/-- Python truthiness of an `Optional[str]`: `None` and the empty string are falsy. -/
def strTruthy : Option String → Bool
  | none => false
  | some s => s ≠ ""

/-- The per-call statistics dictionary `resolution_stats` built in `resolve_document`
(lines 99-104): keys `references_found`, `resolved`, `failed`, `from_cache`. -/
structure CallStats where
  references_found : Nat
  resolved : Nat
  failed : Nat
  from_cache : Nat
deriving DecidableEq, Repr

/-- The second component of `resolve_document`'s return value: either one of the
error/degenerate dictionaries or the full per-call statistics. -/
inductive CallResult where
  | err_max_depth
  | err_circular
  | no_references
  | stats (cs : CallStats)
deriving DecidableEq, Repr

/-- `self.statistics['cache_hits'] += 1` -/
def bump_hits (st : RState) : RState :=
  { st with stats := { st.stats with cache_hits := st.stats.cache_hits + 1 } }

/-- `self.statistics['cache_misses'] += 1` -/
def bump_misses (st : RState) : RState :=
  { st with stats := { st.stats with cache_misses := st.stats.cache_misses + 1 } }

/-- `self.statistics['total_resolutions'] += 1` -/
def bump_total (st : RState) : RState :=
  { st with stats := { st.stats with total_resolutions := st.stats.total_resolutions + 1 } }

/-- `self.statistics['circular_references'] += 1` -/
def bump_circular (st : RState) : RState :=
  { st with stats := { st.stats with circular_references := st.stats.circular_references + 1 } }

/-- `self.statistics['failed_resolutions'] += 1` -/
def bump_failed (st : RState) : RState :=
  { st with stats := { st.stats with failed_resolutions := st.stats.failed_resolutions + 1 } }

/-- `self.resolution_stack.append(doc_path)` (top of stack at the head). -/
def push_stack (doc : String) (st : RState) : RState :=
  { st with resolution_stack := doc :: st.resolution_stack }

/-- `self.resolution_stack.pop()` in the `finally` block. -/
def pop_stack (st : RState) : RState :=
  { st with resolution_stack := st.resolution_stack.tail }

/-! ## The resolver pipeline

`resolve_document` re-enters itself through `_resolve_single_reference` →
`_load_and_convert_document` → `self.resolve_document(...)`.  Those helper methods are
embedded as functions over an explicit callback `recur` standing for the re-entrant
`self.resolve_document` at the current fuel; `resolve_document` itself recurses
structurally on the fuel, spending one unit per re-entry.  An outer `none` means the
fuel ran out; the termination theorem shows sufficient fuel always exists. -/

/-- The result of `resolve_document`: resolved HTML, the returned statistics dict, and
the updated resolver state.  Outer `none` = fuel exhaustion (never happens with
sufficient fuel). -/
abbrev ResolveRes := Option (String × CallResult × RState)

/-- The type of the re-entrant `self.resolve_document` callback:
state → doc_path → html_content → depth → result. -/
abbrev RecurFn := RState → String → String → Nat → ResolveRes

/-- ASCII lowercase of a string, Python `str.lower()`. -/
def lowerStr (s : String) : String :=
  (s.toList.map Char.toLower).asString

/-- The literal `content_block_mappings` dict of `_load_content_block`
(content_resolver.py lines 285-294). -/
def content_block_mappings : List (String × String) :=
  [("dc-letterheader", "Common/Content Blocks/LetterHeader.docx"),
   ("dc-letteraddress", "Common/Content Blocks/DC LetterAddress.docx"),
   ("dc-lettersignoff", "Common/Content Blocks/DC LetterSignoff.docx"),
   ("dc-footer", "Common/Content Blocks/DC Footer.docx"),
   ("letterheader", "Common/Content Blocks/LetterHeader.docx"),
   ("letterfooter", "Common/Content Blocks/LetterFooter.docx"),
   ("letteraddress", "Common/Content Blocks/LetterAddress.docx"),
   ("lettersignoff", "Common/Content Blocks/LetterSignoff.docx")]

/-- `_load_and_convert_document` (content_resolver.py lines 212-271).
For a `.docx` target whose conversion succeeds, the body fragment is recursively
resolved through `self.resolve_document(str(full_path), fragment, depth)` — at the
SAME depth value this method received — but only under the guard
`depth < self.max_depth` (line 255).  `.html`/`.htm` files are returned raw; anything
else, a missing file, or an exception yields `None`. -/
def load_and_convert_document (env : Env) (recur : RecurFn) (st : RState)
    (ref_path : String) (depth : Nat) : Option (Option String × RState) :=
  match env.resolve_path ref_path with
  | none => some (none, st)
  | some full =>
    match env.file_kind full with
    | .docx =>
      match env.docx_fragment full with
      | none => some (none, st)
      | some fragment =>
        if depth < env.max_depth then
          match recur st full fragment depth with
          | none => none
          | some (fragment2, _, st2) => some (some fragment2, st2)
        else some (some fragment, st)
    | .html => some (env.read_file full, st)
    | .other => some (none, st)

/-- `_load_content_block` (content_resolver.py lines 273-309): normalise the name
(`lower().strip()`), look it up in the static alias table, otherwise search the
filesystem for a matching file; load whatever was found. -/
def load_content_block (env : Env) (recur : RecurFn) (st : RState)
    (block_name : String) (depth : Nat) : Option (Option String × RState) :=
  match alookup ((lowerStr block_name).trim) content_block_mappings with
  | some relative_path => load_and_convert_document env recur st relative_path depth
  | none =>
    match env.find_content_block block_name with
    | some search_path => load_and_convert_document env recur st search_path depth
    | none => some (none, st)

/-- `_load_referenced_content` (content_resolver.py lines 311-334): try as a direct
path, then as a content-block name; `if content:` checks Python truthiness, and the
final fall-through returns `None`. -/
def load_referenced_content (env : Env) (recur : RecurFn) (st : RState)
    (ref_id : String) (depth : Nat) : Option (Option String × RState) :=
  match load_and_convert_document env recur st ref_id depth with
  | none => none
  | some (c1, st1) =>
    if strTruthy c1 then some (c1, st1)
    else
      match load_content_block env recur st1 ref_id depth with
      | none => none
      | some (c2, st2) =>
        if strTruthy c2 then some (c2, st2) else some (none, st2)

/-- `_resolve_single_reference` (content_resolver.py lines 168-210) splits into the
kind dispatch (`# Resolve based on reference type`, lines 191-204) modelled here, and
the caching shell modelled by `resolve_single_reference` below: check the cache (hit:
bump `cache_hits` and return the cached fragment), else bump `cache_misses`, dispatch
on the reference kind, and cache the result when it is truthy (non-`None`, non-empty). -/
def dispatch_loader (env : Env) (recur : RecurFn) (st1 : RState)
    (ref_type : RefType) (ref_path : String) (depth : Nat) :
    Option (Option String × RState) :=
  match ref_type with
  | .double_curly => load_and_convert_document env recur st1 ref_path depth
  | .include_directive => load_and_convert_document env recur st1 ref_path depth
  | .sharedo_content => load_and_convert_document env recur st1 ref_path depth
  | .content_block => load_content_block env recur st1 ref_path depth
  | .data_attribute => load_referenced_content env recur st1 ref_path depth

/-- The cache check, miss bookkeeping and caching of the result around the dispatch
above (the body of `_resolve_single_reference`). -/
def resolve_single_reference (env : Env) (recur : RecurFn) (st : RState)
    (ref_type : RefType) (ref_path : String) (depth : Nat) :
    Option (Option String × RState) :=
  match alookup (generate_cache_key ref_type ref_path) st.cache with
  | some v => some (some v, bump_hits st)
  | none =>
    match dispatch_loader env recur (bump_misses st) ref_type ref_path depth with
    | none => none
    | some (rc, st2) =>
      match rc with
      | some v =>
        if v = "" then some (rc, st2)
        else some (rc, { st2 with
          cache := ainsert (generate_cache_key ref_type ref_path) v st2.cache })
      | none => some (none, st2)

/-- The `for ref_type, ref_path in references:` loop of `resolve_document`
(content_resolver.py lines 106-122), threading the running HTML, the per-call
statistics dictionary and the resolver state.  Every reference is resolved at
`depth + 1` of the enclosing call (`depth1` here). -/
def resolve_loop (env : Env) (recur : RecurFn) (doc_path : String) (depth1 : Nat) :
    List (RefType × String) → RState → String → CallStats →
    Option (String × CallStats × RState)
  | [], st, html, cs => some (html, cs, st)
  | (ref_type, ref_path) :: rest, st, html, cs =>
    match resolve_single_reference env recur st ref_type ref_path depth1 with
    | none => none
    | some (rc, st') =>
      match rc with
      | some c =>
        if c = "" then
          resolve_loop env recur doc_path depth1 rest (bump_failed st') html
            { cs with failed := cs.failed + 1 }
        else
          resolve_loop env recur doc_path depth1 rest
            { st' with dependency_graph := dep_add doc_path ref_path st'.dependency_graph }
            (embed_content env html ref_type ref_path c)
            { cs with resolved := cs.resolved + 1 }
      | none =>
        resolve_loop env recur doc_path depth1 rest (bump_failed st') html
          { cs with failed := cs.failed + 1 }

/-- `ContentControlResolver.resolve_document` (content_resolver.py lines 64-127).
Entry guards: `depth > self.max_depth` returns the input flagged
`max_depth_exceeded`; a document already on `resolution_stack` returns the input
flagged `circular_reference` after bumping the lifetime counter.  Otherwise the
document is pushed, `total_resolutions` is bumped, references are extracted and
resolved one by one at `depth + 1`, and the `finally:` block pops the stack on every
exit (including the zero-references early return). -/
def resolve_document (env : Env) : Nat → RState → String → String → Nat → ResolveRes
  | 0, _, _, _, _ => none
  | fuel + 1, st, doc_path, html_content, depth =>
    if env.max_depth < depth then some (html_content, .err_max_depth, st)
    else if doc_path ∈ st.resolution_stack then
      some (html_content, .err_circular, bump_circular st)
    else
      if (extract_references html_content).isEmpty then
        some (html_content, .no_references, pop_stack (bump_total (push_stack doc_path st)))
      else
        match resolve_loop env (resolve_document env fuel) doc_path (depth + 1)
            (extract_references html_content) (bump_total (push_stack doc_path st))
            html_content
            { references_found := (extract_references html_content).length, resolved := 0,
              failed := 0, from_cache := 0 } with
        | none => none
        | some (resolved_html, cs, st2) =>
          some (resolved_html, .stats cs, pop_stack st2)

/-- `clear_cache` (content_resolver.py lines 491-495): empties the cache and zeroes the
hit/miss counters, touching nothing else. -/
def clear_cache (st : RState) : RState :=
  { st with
    cache := [],
    stats := { st.stats with cache_hits := 0, cache_misses := 0 } }

/-! ## Structure parser (`src/app/structure_parser.py`)

Only the structure-tree side of `AdvancedStructureParser` is embedded: the enhanced-HTML
string the parser also returns is a pure annotation output that no claim refers to.
The lifetime statistics dict of the parser is likewise not needed by any claim. -/

/-- `AdvancedStructureParser.MAX_NESTING_DEPTH` (structure_parser.py line 59). -/
def MAX_NESTING_DEPTH : Nat := 10

/-- `StructureType` (structure_parser.py lines 23-29); `section`/`list` renamed to
avoid Lean keywords. -/
inductive StructureType where
  | table
  | conditional
  | sectionT
  | listT
  | mixed
deriving DecidableEq, Repr

/-- `ConditionalType` (structure_parser.py lines 32-38). -/
inductive ConditionalType where
  | if_then
  | if_then_else
  | switch_case
  | loop
  | nested
deriving DecidableEq, Repr

/-- The `conditional_info` dict built by `_process_conditional_blocks`
(structure_parser.py lines 232-236): keys `type`, `condition`, `branches`.
The `closed` field models the dict key `'closed'` read by
`_find_unclosed_conditionals` via `.get('closed', True)`; `none` means the key is
absent.  NOTE: no statement in structure_parser.py ever writes a `'closed'` key, so
every `conditional_info` the parser builds has `closed = none`. -/
structure CondInfo where
  ctype : ConditionalType
  condition : String
  branches : List String
  closed : Option Bool
deriving DecidableEq, Repr

/-- `StructureNode` (structure_parser.py lines 41-50).  `content` is `Any` in Python
(the soup element for tables, a condition string for conditionals, `"document_root"`
for the root); only its presence matters to the claims, so it is modelled as the
descriptive string.  The `attributes`/`formatting` metadata dicts are carried by no
claim and are omitted. -/
inductive StructureNode where
  | mk (type : StructureType) (depth : Nat) (content : String)
      (children : List StructureNode) (conditional_info : Option CondInfo)

/-- Projection: node type. -/
def StructureNode.type : StructureNode → StructureType
  | .mk t _ _ _ _ => t

/-- Projection: node depth. -/
def StructureNode.depth : StructureNode → Nat
  | .mk _ d _ _ _ => d

/-- Projection: children. -/
def StructureNode.children : StructureNode → List StructureNode
  | .mk _ _ _ cs _ => cs

/-- Projection: conditional_info. -/
def StructureNode.conditional_info : StructureNode → Option CondInfo
  | .mk _ _ _ _ ci => ci

mutual

/-- `_calculate_max_depth` (structure_parser.py lines 448-461): a leaf returns its own
depth; an inner node returns the maximum over its children's results (note: not
including its own depth). -/
def calculate_max_depth : StructureNode → Nat
  | .mk _ depth _ children _ =>
    if children.isEmpty then depth else calculate_max_depth_list children

/-- `max(...)` over the children of a node, as a fold (all values are naturals). -/
def calculate_max_depth_list : List StructureNode → Nat
  | [] => 0
  | c :: cs => max (calculate_max_depth c) (calculate_max_depth_list cs)

end

mutual

/-- `_count_nodes` (structure_parser.py lines 541-543). -/
def count_nodes : StructureNode → Nat
  | .mk _ _ _ children _ => 1 + count_nodes_list children

/-- Sum of `_count_nodes` over a child list. -/
def count_nodes_list : List StructureNode → Nat
  | [] => 0
  | c :: cs => count_nodes c + count_nodes_list cs

end

mutual

/-- `_count_by_type` (structure_parser.py lines 545-548). -/
def count_by_type (node_type : StructureType) : StructureNode → Nat
  | .mk t _ _ children _ =>
    (if t = node_type then 1 else 0) + count_by_type_list node_type children

/-- Sum of `_count_by_type` over a child list. -/
def count_by_type_list (node_type : StructureType) : List StructureNode → Nat
  | [] => 0
  | c :: cs => count_by_type node_type c + count_by_type_list node_type cs

end

/-- The test `node.conditional_info and not node.conditional_info.get('closed', True)`
(structure_parser.py line 516): the dict is truthy (it always has keys when present)
and the `closed` key defaults to `True` when absent. -/
def cond_unclosed : Option CondInfo → Bool
  | none => false
  | some ci => !(ci.closed.getD true)

mutual

/-- `_find_unclosed_conditionals` (structure_parser.py lines 511-522). -/
def find_unclosed_conditionals : StructureNode → List StructureNode
  | .mk t d c children ci =>
    (if t = StructureType.conditional ∧ cond_unclosed ci then
      [StructureNode.mk t d c children ci]
    else []) ++ find_unclosed_conditionals_list children

/-- Concatenation of `_find_unclosed_conditionals` over a child list. -/
def find_unclosed_conditionals_list : List StructureNode → List StructureNode
  | [] => []
  | c :: cs => find_unclosed_conditionals c ++ find_unclosed_conditionals_list cs

end

mutual

/-- `_find_invalid_nesting` (structure_parser.py lines 524-539). -/
def find_invalid_nesting : StructureNode → List String
  | .mk t d _ children _ =>
    (if t = StructureType.table ∧ 5 < d then
      ["Table nested " ++ toString d ++ " levels deep may cause rendering issues"]
    else []) ++
    (if t = StructureType.mixed ∧ 3 < d then
      ["Complex mixed structure at depth " ++ toString d]
    else []) ++ find_invalid_nesting_list children

/-- Concatenation of `_find_invalid_nesting` over a child list. -/
def find_invalid_nesting_list : List StructureNode → List String
  | [] => []
  | c :: cs => find_invalid_nesting c ++ find_invalid_nesting_list cs

end

/-- The validation-results dict of `validate_structure` (structure_parser.py lines
473-478 and 500-507), with the `structure_summary` sub-dict flattened into fields. -/
structure ValidationResults where
  is_valid : Bool
  errors : List String
  warnings : List String
  total_nodes : Nat
  max_depth : Nat
  table_nodes : Nat
  conditional_nodes : Nat
  mixed_nodes : Nat
deriving DecidableEq, Repr

/-- `validate_structure` (structure_parser.py lines 463-509): warn when the maximum
tree depth exceeds `MAX_NESTING_DEPTH`; report unclosed conditionals as an error and
set `is_valid` to `False`; append invalid-nesting warnings; fill in the summary. -/
def validate_structure (root : StructureNode) : ValidationResults :=
  let md := calculate_max_depth root
  let depth_warnings :=
    if MAX_NESTING_DEPTH < md then
      ["Structure depth " ++ toString md ++ " exceeds recommended maximum " ++
        toString MAX_NESTING_DEPTH]
    else []
  let open_conditionals := find_unclosed_conditionals root
  { is_valid := open_conditionals.isEmpty
    errors :=
      if open_conditionals.isEmpty then []
      else ["Found " ++ toString open_conditionals.length ++ " unclosed conditional blocks"]
    warnings := depth_warnings ++ find_invalid_nesting root
    total_nodes := count_nodes root
    max_depth := md
    table_nodes := count_by_type .table root
    conditional_nodes := count_by_type .conditional root
    mixed_nodes := count_by_type .mixed root }

/-- `parse_document_structure` (structure_parser.py lines 88-118), structure-tree
component.  Empty content returns the childless root.  Content containing both `<`
and `>` takes the HTML branch `_parse_html_structure`, whose children (produced
through the external BeautifulSoup parse by `_process_nested_tables`,
`_process_conditional_blocks` and `_process_mixed_content` appending to the root) are
abstracted as the function argument `html_children`.  Any other content takes the
plain-text branch `_parse_text_structure` (lines 424-446), which only builds the
enhanced string — it appends no node to the tree, so the root is returned childless. -/
def parse_document_structure (html_children : String → List StructureNode)
    (content : String) : StructureNode :=
  if content = "" then StructureNode.mk .sectionT 0 "document_root" [] none
  else if content.toList.contains '<' ∧ content.toList.contains '>' then
    StructureNode.mk .sectionT 0 "document_root" (html_children content) none
  else StructureNode.mk .sectionT 0 "document_root" [] none

/-! ## Nested tables (`_process_nested_tables`) -/

/-- A parsed HTML element tree, the shallow embedding of the BeautifulSoup objects the
nested-table walk traverses. -/
inductive Elem where
  | text (s : String)
  | elem (tag : String) (children : List Elem)

/-- Whether an element node has one of the given tag names. -/
def elemHasTag (tags : List String) : Elem → Bool
  | .text _ => false
  | .elem t _ => tags.contains t

/-- The children of an element (a text node has none). -/
def elemChildren : Elem → List Elem
  | .text _ => []
  | .elem _ cs => cs

/-- `soup.find_all(tag, recursive=False)`: the direct children carrying the tag. -/
def direct_named (tags : List String) (e : Elem) : List Elem :=
  (elemChildren e).filter (elemHasTag tags)

mutual

/-- `soup.find_all(tags)` (recursive): all strict descendants with one of the tags,
in document (pre-)order. -/
def descendants_named (tags : List String) : Elem → List Elem
  | .text _ => []
  | .elem _ cs => descendants_named_list tags cs

/-- Descendant collection over a sibling list. -/
def descendants_named_list (tags : List String) : List Elem → List Elem
  | [] => []
  | c :: cs =>
    (if elemHasTag tags c then [c] else []) ++ descendants_named tags c ++
      descendants_named_list tags cs

end

/-- `_process_nested_tables` (structure_parser.py lines 147-196), reformulated on the
gas `MAX_NESTING_DEPTH - depth`: gas `0` is exactly the entry guard
`depth >= self.MAX_NESTING_DEPTH` returning without descending.  For each direct table
child a `StructureNode` of depth `depth + 1` is built; when the table contains any
descendant table, every descendant cell with a direct table child is recursed into at
`depth + 1`, the produced nodes becoming the table node's children.  The attribute
stamping (`data-nesting-level` etc.), `_extract_formatting`, `_preserve_cell_content`
and the statistics counters mutate the soup/instance only and are carried by no claim. -/
def process_nested_tables_gas : Nat → Elem → Nat → List StructureNode
  | 0, _, _ => []
  | gas + 1, soup, depth =>
    (direct_named ["table"] soup).map (fun t =>
      let nested_tables := descendants_named ["table"] t
      let child_nodes :=
        if nested_tables.isEmpty then []
        else
          (descendants_named ["td", "th"] t).flatMap (fun cell =>
            if (direct_named ["table"] cell).isEmpty then []
            else process_nested_tables_gas gas cell (depth + 1))
      StructureNode.mk .table (depth + 1) "table" child_nodes none)

/-- `_process_nested_tables(soup, parent, depth)`: the list of nodes appended to
`parent.children`. -/
def process_nested_tables (soup : Elem) (depth : Nat) : List StructureNode :=
  process_nested_tables_gas (MAX_NESTING_DEPTH - depth) soup depth

mutual

/-- All node depths in a structure tree are bounded by `b`. -/
def depths_le (b : Nat) : StructureNode → Bool
  | .mk _ d _ children _ => decide (d ≤ b) && depths_le_list b children

/-- `depths_le` over a child list. -/
def depths_le_list (b : Nat) : List StructureNode → Bool
  | [] => true
  | c :: cs => depths_le b c && depths_le_list b cs

end

/-! ## Concrete environments and states used by the evaluation witnesses -/

/-- The empty initial state of a fresh `ContentControlResolver` (constructor,
content_resolver.py lines 43-62). -/
def st0 : RState :=
  { cache := [], dependency_graph := [], resolution_stack := [],
    stats := ⟨0, 0, 0, 0, 0⟩ }

/-- A world with no resolvable files at all; `max_depth` keeps its default 5. -/
def env0 : Env :=
  { max_depth := 5
    resolve_path := fun _ => none
    file_kind := fun _ => .other
    docx_fragment := fun _ => none
    read_file := fun _ => none
    find_content_block := fun _ => none
    replace_data_attribute := fun h _ _ => h }

/-- A world holding one loadable HTML file `X` with content `<p>hi</p>`. -/
def envX : Env :=
  { env0 with
    resolve_path := fun p => if p = "X" then some "X" else none
    file_kind := fun _ => .html
    read_file := fun p => if p = "X" then some "<p>hi</p>" else none }

/-- A chain of tables, each nested inside a cell of the previous one:
`tableNest n` is a table nested `n + 1` levels deep in total. -/
def tableNest : Nat → Elem
  | 0 => Elem.elem "table" [Elem.elem "td" [Elem.text "leaf"]]
  | n + 1 => Elem.elem "table" [Elem.elem "td" [tableNest n]]

/-- A document containing a table nested 12 levels deep. -/
def soup12 : Elem := Elem.elem "root" [tableNest 11]

/-- Filter a reference list to one kind. -/
def kind_filter (k : RefType) (rs : List (RefType × String)) : List (RefType × String) :=
  rs.filter (fun r => r.1 == k)

/-- Invariant: every cached fragment is non-empty (the code only writes truthy
results to the cache, content_resolver.py lines 206-208). -/
def cache_ok (st : RState) : Prop := ∀ kv ∈ st.cache, kv.2 ≠ ""

/-- How one resolver call is allowed to change the state: the resolution stack is
restored, the hit/miss counters only grow, and the non-empty-cache invariant is
preserved. -/
def StEvolve (st st' : RState) : Prop :=
  st'.resolution_stack = st.resolution_stack ∧
  st.stats.cache_misses ≤ st'.stats.cache_misses ∧
  st.stats.cache_hits ≤ st'.stats.cache_hits ∧
  (cache_ok st → cache_ok st')

/-! ## Theorems -/

/-- Claim C7: `clear_cache` resets only the cache contents and the hit/miss counters;
the dependency graph and the other lifetime statistics are left unchanged. -/
theorem clear_cache_resets_only_cache_and_counters (st : RState) :
    (clear_cache st).cache = [] ∧
    (clear_cache st).stats.cache_hits = 0 ∧
    (clear_cache st).stats.cache_misses = 0 ∧
    (clear_cache st).dependency_graph = st.dependency_graph ∧
    (clear_cache st).resolution_stack = st.resolution_stack ∧
    (clear_cache st).stats.total_resolutions = st.stats.total_resolutions ∧
    (clear_cache st).stats.circular_references = st.stats.circular_references ∧
    (clear_cache st).stats.failed_resolutions = st.stats.failed_resolutions := by
  refine ⟨rfl, rfl, rfl, rfl, rfl, rfl, rfl, rfl⟩

/-- Claim C2 (evaluation at the spec's own test inputs): for BOTH
`"\x7bif X\x7d A \x7bendif\x7d"` and the unbalanced `"\x7bif X\x7d A"` the pipeline
`parse_document_structure` → `validate_structure` reports `is_valid = true` with no
errors.  The second half contradicts the claim, which demands `is_valid = false` with
exactly one unclosed-conditional error for the unbalanced input: neither input contains
`<`, so the plain-text branch builds a childless tree, and (independently) the
`'closed'` key tested by `_find_unclosed_conditionals` is never written anywhere in
structure_parser.py, so the unclosed-conditional error path is unreachable for every
input. -/
theorem validate_structure_never_reports_unclosed (hc : String → List StructureNode) :
    validate_structure (parse_document_structure hc "\x7bif X\x7d A \x7bendif\x7d") =
      { is_valid := true, errors := [], warnings := [], total_nodes := 1, max_depth := 0,
        table_nodes := 0, conditional_nodes := 0, mixed_nodes := 0 } ∧
    validate_structure (parse_document_structure hc "\x7bif X\x7d A") =
      { is_valid := true, errors := [], warnings := [], total_nodes := 1, max_depth := 0,
        table_nodes := 0, conditional_nodes := 0, mixed_nodes := 0 } := by
  exact ⟨rfl, rfl⟩

/-- Claim C3 (evaluation at the failing input): resolving `\x7b\x7bcontent:X\x7d\x7d`
against a world where `X` loads as `<p>hi</p>` reports the reference as resolved
(`resolved = 1`, the fragment is cached, the dependency edge is recorded) yet returns
the HTML UNCHANGED: `_embed_content` builds the replacement pattern
`\x7b\x7bX\x7d\x7d` instead of the matched syntax `\x7b\x7bcontent:X\x7d\x7d`, so the
literal substitution finds nothing to replace and no wrapper element is inserted. -/
theorem double_curly_embedding_never_fires :
    resolve_document envX 3 st0 "doc" "\x7b\x7bcontent:X\x7d\x7d" 0 =
      some ("\x7b\x7bcontent:X\x7d\x7d",
        CallResult.stats { references_found := 1, resolved := 1, failed := 0, from_cache := 0 },
        { cache := [("double_curly:X", "<p>hi</p>")],
          dependency_graph := [("doc", ["X"])],
          resolution_stack := [],
          stats := ⟨0, 1, 1, 0, 0⟩ }) ∧
    embed_content_text "\x7b\x7bcontent:X\x7d\x7d" RefType.double_curly "X" "<p>hi</p>" =
      "\x7b\x7bcontent:X\x7d\x7d" := by
  exact ⟨by decide, by decide⟩

/-- Claim C8 counterexample: in `"@include(a) \x7b\x7bcontent:b\x7d\x7d"` the
include-directive reference occurs first in the source, yet `_extract_references`
returns the double-curly reference first — the output is NOT in first-occurrence
order when kinds interleave, because the extractor runs pattern by pattern. -/
theorem extract_references_not_first_occurrence_order :
    extract_references "@include(a) \x7b\x7bcontent:b\x7d\x7d" =
      [(RefType.double_curly, "b"), (RefType.include_directive, "a")] ∧
    extract_references "@include(a) \x7b\x7bcontent:b\x7d\x7d" ≠
      [(RefType.include_directive, "a"), (RefType.double_curly, "b")] := by
  exact ⟨by decide, by decide⟩

/-- `kind_filter` distributes over append. -/
theorem kind_filter_append (k : RefType) (a b : List (RefType × String)) :
    kind_filter k (a ++ b) = kind_filter k a ++ kind_filter k b := by
  simp [kind_filter]

/-- Filtering a single-kind group keeps it entirely or drops it entirely. -/
theorem kind_filter_map (k k' : RefType) (l : List String) :
    kind_filter k' (l.map (fun m => (k, m))) =
      if k = k' then l.map (fun m => (k, m)) else [] := by
  induction l with
  | nil => simp [kind_filter]
  | cons a t ih =>
    by_cases h : k = k' <;>
      simp_all [kind_filter, List.filter_cons, h]

/-- Claim C8 amended: the extractor returns the references grouped by kind, groups in
the fixed pattern order `double_curly`, `content_block`, `include_directive`,
`sharedo_content`, `data_attribute`; within each group matches appear in
first-occurrence order with duplicates preserved (second conjunct: a concrete
duplicated reference appears twice). -/
theorem extract_references_grouped_by_kind :
    (∀ content, extract_references content =
      kind_filter .double_curly (extract_references content) ++
      kind_filter .content_block (extract_references content) ++
      kind_filter .include_directive (extract_references content) ++
      kind_filter .sharedo_content (extract_references content) ++
      kind_filter .data_attribute (extract_references content)) ∧
    extract_references "\x7b\x7bcontent:a\x7d\x7d \x7b\x7bcontent:a\x7d\x7d" =
      [(RefType.double_curly, "a"), (RefType.double_curly, "a")] := by
  constructor
  · intro content
    have grouped : ∀ l1 l2 l3 l4 l5 : List String,
        ∀ big : List (RefType × String),
        big = l1.map (fun m => (RefType.double_curly, m)) ++
          l2.map (fun m => (RefType.content_block, m)) ++
          l3.map (fun m => (RefType.include_directive, m)) ++
          l4.map (fun m => (RefType.sharedo_content, m)) ++
          l5.map (fun m => (RefType.data_attribute, m)) →
        big = kind_filter .double_curly big ++ kind_filter .content_block big ++
          kind_filter .include_directive big ++ kind_filter .sharedo_content big ++
          kind_filter .data_attribute big := by
      intro l1 l2 l3 l4 l5 big hbig
      subst hbig
      simp +decide [kind_filter_append, kind_filter_map]
    unfold extract_references
    by_cases hc : content = ""
    · simp [hc, kind_filter]
    · simp only [hc, if_neg, ite_false]
      apply grouped (scan_double_curly content) (scan_content_block content)
        (scan_include_directive content) (scan_sharedo_content content)
        (if content.toList.contains '<' then scan_data_attribute content else [])
      split <;> simp
  · decide

/-- Boolean/quantifier bridge for `depths_le_list`. -/
theorem depths_le_list_iff (b : Nat) (l : List StructureNode) :
    depths_le_list b l = true ↔ ∀ c ∈ l, depths_le b c = true := by
  induction l with
  | nil => simp [depths_le_list]
  | cons c cs ih => simp [depths_le_list, Bool.and_eq_true, ih]

/-- Depth bound for the gas-indexed nested-table walk: starting at `depth` with gas
`MAX_NESTING_DEPTH - depth` available, every node the walk produces has all its
depths bounded by `MAX_NESTING_DEPTH`. -/
theorem process_nested_tables_gas_depths (gas : Nat) :
    ∀ (soup : Elem) (depth : Nat), depth + gas ≤ MAX_NESTING_DEPTH →
      ∀ n ∈ process_nested_tables_gas gas soup depth,
        depths_le MAX_NESTING_DEPTH n = true := by
  induction gas with
  | zero =>
    intro soup depth _ n hn
    simp [process_nested_tables_gas] at hn
  | succ g ih =>
    intro soup depth h n hn
    simp only [process_nested_tables_gas, List.mem_map] at hn
    obtain ⟨t, _, rfl⟩ := hn
    simp only [depths_le, Bool.and_eq_true, decide_eq_true_eq]
    refine ⟨by omega, ?_⟩
    rw [depths_le_list_iff]
    intro c hcmem
    split at hcmem
    · simp at hcmem
    · rw [List.mem_flatMap] at hcmem
      obtain ⟨cell, _, hcell⟩ := hcmem
      split at hcell
      · simp at hcell
      · exact ih cell (depth + 1) (by omega) c hcell

/-- Claim C9: the nested-table walk never descends past `MAX_NESTING_DEPTH = 10`.
At `depth ≥ 10` it returns immediately without descending (the entry guard), and from
any start `depth`, every structure node it produces — hence the whole recursion —
stays bounded by depth 10.  The walk is a total function, so the rest of the parse
always completes. -/
theorem process_nested_tables_depth_bounded (soup : Elem) (depth : Nat) :
    (MAX_NESTING_DEPTH ≤ depth → process_nested_tables soup depth = []) ∧
    ∀ n ∈ process_nested_tables soup depth, depths_le MAX_NESTING_DEPTH n = true := by
  constructor
  · intro h
    unfold process_nested_tables
    have hz : MAX_NESTING_DEPTH - depth = 0 := by omega
    rw [hz]
    rfl
  · intro n hn
    unfold process_nested_tables at hn
    by_cases hd : depth ≤ MAX_NESTING_DEPTH
    · exact process_nested_tables_gas_depths (MAX_NESTING_DEPTH - depth) soup depth
        (by omega) n hn
    · have hz : MAX_NESTING_DEPTH - depth = 0 := by omega
      rw [hz] at hn
      simp [process_nested_tables_gas] at hn

/-- Witness for C9: at depth 10 the walk stops immediately on a concrete cell holding
a 4-level table nest, and on a concrete 12-level nest from depth 0 every produced node
is depth-bounded by 10. -/
theorem process_nested_tables_depth_bounded_witness :
    process_nested_tables (Elem.elem "td" [tableNest 3]) 10 = [] ∧
    depths_le_list 10 (process_nested_tables soup12 0) = true :=
  ⟨(process_nested_tables_depth_bounded (Elem.elem "td" [tableNest 3]) 10).1 (by decide),
   by decide⟩

/-! ## Termination of the resolver (claim C1)

The only source of the fuel-exhaustion marker `none` in the embedding is the
re-entrant callback; the following lemmas show that when the callback is total at the
relevant depth, every helper is total, and by induction on the fuel that
`resolve_document` itself never exhausts a fuel exceeding `max_depth + 1 - depth`. -/

/-- `_load_and_convert_document` is total whenever the re-entrant callback is total at
this depth (the re-entry is guarded by `depth < max_depth`). -/
theorem load_and_convert_document_ne_none (env : Env) (recur : RecurFn) (st : RState)
    (p : String) (depth : Nat)
    (hrec : ∀ st' d' h', depth < env.max_depth → recur st' d' h' depth ≠ none) :
    load_and_convert_document env recur st p depth ≠ none := by
  intro hnone
  unfold load_and_convert_document at hnone
  split at hnone
  · simp at hnone
  · split at hnone
    · split at hnone
      · simp at hnone
      · split at hnone
        · split at hnone
          · exact hrec _ _ _ (by assumption) (by assumption)
          · simp at hnone
        · simp at hnone
    · simp at hnone
    · simp at hnone


/-- `_load_content_block` is total under the same condition. -/
theorem load_content_block_ne_none (env : Env) (recur : RecurFn) (st : RState)
    (b : String) (depth : Nat)
    (hrec : ∀ st' d' h', depth < env.max_depth → recur st' d' h' depth ≠ none) :
    load_content_block env recur st b depth ≠ none := by
  unfold load_content_block
  split
  · exact load_and_convert_document_ne_none env recur st _ depth hrec
  · split
    · exact load_and_convert_document_ne_none env recur st _ depth hrec
    · simp

/-- `_load_referenced_content` is total under the same condition. -/
theorem load_referenced_content_ne_none (env : Env) (recur : RecurFn) (st : RState)
    (r : String) (depth : Nat)
    (hrec : ∀ st' d' h', depth < env.max_depth → recur st' d' h' depth ≠ none) :
    load_referenced_content env recur st r depth ≠ none := by
  unfold load_referenced_content
  split
  · exact absurd (by assumption) (load_and_convert_document_ne_none env recur st r depth hrec)
  · rename_i c1 st1 _
    split
    · simp
    · split
      · exact absurd (by assumption) (load_content_block_ne_none env recur st1 r depth hrec)
      · split <;> simp

/-- The kind dispatch is total under the same condition. -/
theorem dispatch_loader_ne_none (env : Env) (recur : RecurFn) (st : RState)
    (rt : RefType) (rp : String) (depth : Nat)
    (hrec : ∀ st' d' h', depth < env.max_depth → recur st' d' h' depth ≠ none) :
    dispatch_loader env recur st rt rp depth ≠ none := by
  cases rt
  · exact load_and_convert_document_ne_none env recur st rp depth hrec
  · exact load_content_block_ne_none env recur st rp depth hrec
  · exact load_and_convert_document_ne_none env recur st rp depth hrec
  · exact load_and_convert_document_ne_none env recur st rp depth hrec
  · exact load_referenced_content_ne_none env recur st rp depth hrec

/-- `_resolve_single_reference` is total under the same condition. -/
theorem resolve_single_reference_ne_none (env : Env) (recur : RecurFn) (st : RState)
    (rt : RefType) (rp : String) (depth : Nat)
    (hrec : ∀ st' d' h', depth < env.max_depth → recur st' d' h' depth ≠ none) :
    resolve_single_reference env recur st rt rp depth ≠ none := by
  unfold resolve_single_reference
  split
  · simp
  · split
    · exact absurd (by assumption) (dispatch_loader_ne_none env recur _ rt rp depth hrec)
    · split
      · split <;> simp
      · simp

/-- The reference loop is total under the same condition (references are resolved at
the fixed depth `depth1`). -/
theorem resolve_loop_ne_none (env : Env) (recur : RecurFn) (doc : String) (depth1 : Nat)
    (refs : List (RefType × String))
    (hrec : ∀ st' d' h', depth1 < env.max_depth → recur st' d' h' depth1 ≠ none) :
    ∀ (st : RState) (html : String) (cs : CallStats),
      resolve_loop env recur doc depth1 refs st html cs ≠ none := by
  induction refs with
  | nil => intro st html cs; simp [resolve_loop]
  | cons hd tl ih =>
    intro st html cs
    obtain ⟨rt, rp⟩ := hd
    unfold resolve_loop
    split
    · exact absurd (by assumption)
        (resolve_single_reference_ne_none env recur st rt rp depth1 hrec)
    · split
      · split
        · exact ih _ _ _
        · exact ih _ _ _
      · exact ih _ _ _

/-- Claim C1: `resolve_document` always terminates.  Any fuel exceeding
`max_depth + 1 - depth` is never exhausted: a call with `depth > max_depth` returns
immediately at the entry guard, every re-entry through a loaded document happens at
`depth + 1`, and the re-entrant call inside `_load_and_convert_document` is guarded by
`depth < max_depth`, so the quantity `max_depth + 1 - depth` strictly decreases along
every chain of re-entries and the recursion can never loop indefinitely — for any
document graph, including self-referencing and mutually-referencing ones. -/
theorem resolve_document_terminates (env : Env) :
    ∀ (fuel : Nat) (st : RState) (doc html : String) (depth : Nat),
      env.max_depth + 1 - depth < fuel →
      resolve_document env fuel st doc html depth ≠ none := by
  intro fuel
  induction fuel with
  | zero => intro st doc html depth h; omega
  | succ n ih =>
    intro st doc html depth h
    unfold resolve_document
    split
    · simp
    · split
      · simp
      · rename_i hguard _
        split
        · simp
        · have hrec : ∀ st' d' h', depth + 1 < env.max_depth →
              resolve_document env n st' d' h' (depth + 1) ≠ none := by
            intro st' d' h' hlt
            exact ih st' d' h' (depth + 1) (by omega)
          split
          · exact absurd (by assumption)
              (resolve_loop_ne_none env (resolve_document env n) doc (depth + 1)
                (extract_references html) hrec (bump_total (push_stack doc st)) _ _)
          · simp

/-! ## State evolution of the resolver (claims C5, C6) -/

/-- `StEvolve` is reflexive. -/
theorem StEvolve_refl (st : RState) : StEvolve st st :=
  ⟨rfl, le_refl _, le_refl _, id⟩

/-- `StEvolve` is transitive. -/
theorem StEvolve_trans {a b c : RState} (h1 : StEvolve a b) (h2 : StEvolve b c) :
    StEvolve a c :=
  ⟨h2.1.trans h1.1, h1.2.1.trans h2.2.1, h1.2.2.1.trans h2.2.2.1,
   fun hc => h2.2.2.2 (h1.2.2.2 hc)⟩

/-- Bumping `cache_hits` evolves the state. -/
theorem StEvolve_bump_hits (st : RState) : StEvolve st (bump_hits st) :=
  ⟨rfl, le_refl _, Nat.le_succ _, id⟩

/-- Bumping `cache_misses` evolves the state. -/
theorem StEvolve_bump_misses (st : RState) : StEvolve st (bump_misses st) :=
  ⟨rfl, Nat.le_succ _, le_refl _, id⟩

/-- Bumping `failed_resolutions` evolves the state. -/
theorem StEvolve_bump_failed (st : RState) : StEvolve st (bump_failed st) :=
  ⟨rfl, le_refl _, le_refl _, id⟩

/-- Recording a dependency edge evolves the state. -/
theorem StEvolve_dep_add (st : RState) (d r : String) :
    StEvolve st { st with dependency_graph := dep_add d r st.dependency_graph } :=
  ⟨rfl, le_refl _, le_refl _, id⟩

/-- Membership after a dict assignment: an entry of `ainsert k v c` is either the
assigned pair or an original entry. -/
theorem ainsert_mem (k v : String) (c : List (String × String)) :
    ∀ kv ∈ ainsert k v c, kv = (k, v) ∨ kv ∈ c := by
  induction c with
  | nil => intro kv h; simp [ainsert] at h; simp [h]
  | cons hd tl ih =>
    intro kv h
    unfold ainsert at h
    split at h
    · rcases List.mem_cons.mp h with h' | h'
      · exact Or.inl h'
      · exact Or.inr (List.mem_cons_of_mem _ h')
    · rcases List.mem_cons.mp h with h' | h'
      · exact Or.inr (by simp [h'])
      · rcases ih kv h' with h'' | h''
        · exact Or.inl h''
        · exact Or.inr (List.mem_cons_of_mem _ h'')

/-- Dict assignment of a non-empty value preserves the non-empty-cache invariant. -/
theorem StEvolve_ainsert (st : RState) (k v : String) (hv : v ≠ "") :
    StEvolve st { st with cache := ainsert k v st.cache } := by
  refine ⟨rfl, le_refl _, le_refl _, fun hc kv hm => ?_⟩
  rcases ainsert_mem k v st.cache kv hm with h | h
  · simp [h, hv]
  · exact hc kv h

/-- Lookup after dict assignment finds the assigned value. -/
theorem alookup_ainsert (k v : String) (c : List (String × String)) :
    alookup k (ainsert k v c) = some v := by
  induction c with
  | nil => simp [ainsert, alookup]
  | cons hd tl ih =>
    unfold ainsert
    split
    · simp [alookup]
    · rename_i hne
      simp [alookup, hne, ih]

/-- `_load_and_convert_document` evolves the state whenever the re-entrant callback
does. -/
theorem load_and_convert_document_evolve (env : Env) (recur : RecurFn) (st : RState)
    (p : String) (depth : Nat)
    (hrec : ∀ st' d' h' r, recur st' d' h' depth = some r → StEvolve st' r.2.2) :
    ∀ c st₁, load_and_convert_document env recur st p depth = some (c, st₁) →
      StEvolve st st₁ := by
  intro c st₁ h
  unfold load_and_convert_document at h
  split at h
  · simp only [Option.some.injEq, Prod.mk.injEq] at h
    rw [← h.2]
    exact StEvolve_refl st
  · split at h
    · split at h
      · simp only [Option.some.injEq, Prod.mk.injEq] at h
        rw [← h.2]
        exact StEvolve_refl st
      · split at h
        · split at h
          · simp at h
          · rename_i heq
            simp only [Option.some.injEq, Prod.mk.injEq] at h
            rw [← h.2]
            exact hrec _ _ _ _ heq
        · simp only [Option.some.injEq, Prod.mk.injEq] at h
          rw [← h.2]
          exact StEvolve_refl st
    · simp only [Option.some.injEq, Prod.mk.injEq] at h
      rw [← h.2]
      exact StEvolve_refl st
    · simp only [Option.some.injEq, Prod.mk.injEq] at h
      rw [← h.2]
      exact StEvolve_refl st

/-- `_load_content_block` evolves the state whenever the callback does. -/
theorem load_content_block_evolve (env : Env) (recur : RecurFn) (st : RState)
    (b : String) (depth : Nat)
    (hrec : ∀ st' d' h' r, recur st' d' h' depth = some r → StEvolve st' r.2.2) :
    ∀ c st₁, load_content_block env recur st b depth = some (c, st₁) →
      StEvolve st st₁ := by
  intro c st₁ h
  unfold load_content_block at h
  split at h
  · exact load_and_convert_document_evolve env recur st _ depth hrec c st₁ h
  · split at h
    · exact load_and_convert_document_evolve env recur st _ depth hrec c st₁ h
    · simp only [Option.some.injEq, Prod.mk.injEq] at h
      rw [← h.2]
      exact StEvolve_refl st

/-- `_load_referenced_content` evolves the state whenever the callback does. -/
theorem load_referenced_content_evolve (env : Env) (recur : RecurFn) (st : RState)
    (rid : String) (depth : Nat)
    (hrec : ∀ st' d' h' r, recur st' d' h' depth = some r → StEvolve st' r.2.2) :
    ∀ c st₁, load_referenced_content env recur st rid depth = some (c, st₁) →
      StEvolve st st₁ := by
  intro c st₁ h
  unfold load_referenced_content at h
  split at h
  · simp at h
  · rename_i c1 st1 heq1
    have e1 : StEvolve st st1 :=
      load_and_convert_document_evolve env recur st rid depth hrec c1 st1 heq1
    split at h
    · simp only [Option.some.injEq, Prod.mk.injEq] at h
      rw [← h.2]
      exact e1
    · split at h
      · simp at h
      · rename_i c2 st2 heq2
        have e2 : StEvolve st1 st2 :=
          load_content_block_evolve env recur st1 rid depth hrec c2 st2 heq2
        split at h <;>
          (simp only [Option.some.injEq, Prod.mk.injEq] at h
           rw [← h.2]
           exact StEvolve_trans e1 e2)

/-- The kind dispatch evolves the state whenever the callback does. -/
theorem dispatch_loader_evolve (env : Env) (recur : RecurFn) (st : RState)
    (rt : RefType) (rp : String) (depth : Nat)
    (hrec : ∀ st' d' h' r, recur st' d' h' depth = some r → StEvolve st' r.2.2) :
    ∀ c st₁, dispatch_loader env recur st rt rp depth = some (c, st₁) →
      StEvolve st st₁ := by
  cases rt
  · exact load_and_convert_document_evolve env recur st rp depth hrec
  · exact load_content_block_evolve env recur st rp depth hrec
  · exact load_and_convert_document_evolve env recur st rp depth hrec
  · exact load_and_convert_document_evolve env recur st rp depth hrec
  · exact load_referenced_content_evolve env recur st rp depth hrec

/-- `_resolve_single_reference` evolves the state whenever the callback does. -/
theorem resolve_single_reference_evolve (env : Env) (recur : RecurFn) (st : RState)
    (rt : RefType) (rp : String) (depth : Nat)
    (hrec : ∀ st' d' h' r, recur st' d' h' depth = some r → StEvolve st' r.2.2) :
    ∀ rc st₁, resolve_single_reference env recur st rt rp depth = some (rc, st₁) →
      StEvolve st st₁ := by
  intro rc st₁ h
  unfold resolve_single_reference at h
  split at h
  · simp only [Option.some.injEq, Prod.mk.injEq] at h
    rw [← h.2]
    exact StEvolve_bump_hits st
  · split at h
    · simp at h
    · rename_i rc0 st2 heq
      have e1 : StEvolve st st2 :=
        StEvolve_trans (StEvolve_bump_misses st)
          (dispatch_loader_evolve env recur (bump_misses st) rt rp depth hrec rc0 st2 heq)
      split at h
      · split at h
        · simp only [Option.some.injEq, Prod.mk.injEq] at h
          rw [← h.2]
          exact e1
        · rename_i v hv
          simp only [Option.some.injEq, Prod.mk.injEq] at h
          rw [← h.2]
          exact StEvolve_trans e1 (StEvolve_ainsert st2 _ v hv)
      · simp only [Option.some.injEq, Prod.mk.injEq] at h
        rw [← h.2]
        exact e1

/-- The reference loop evolves the state whenever the callback does. -/
theorem resolve_loop_evolve (env : Env) (recur : RecurFn) (doc : String) (depth1 : Nat)
    (hrec : ∀ st' d' h' r, recur st' d' h' depth1 = some r → StEvolve st' r.2.2) :
    ∀ (refs : List (RefType × String)) (st : RState) (html : String) (cs : CallStats)
      (rh : String) (cs' : CallStats) (st' : RState),
      resolve_loop env recur doc depth1 refs st html cs = some (rh, cs', st') →
      StEvolve st st' := by
  intro refs
  induction refs with
  | nil =>
    intro st html cs rh cs' st' h
    simp only [resolve_loop, Option.some.injEq, Prod.mk.injEq] at h
    rw [← h.2.2]
    exact StEvolve_refl st
  | cons hd tl ih =>
    intro st html cs rh cs' st' h
    obtain ⟨rt, rp⟩ := hd
    unfold resolve_loop at h
    split at h
    · simp at h
    · rename_i rc stx heq
      have e1 : StEvolve st stx :=
        resolve_single_reference_evolve env recur st rt rp depth1 hrec rc stx heq
      split at h
      · split at h
        · exact StEvolve_trans (StEvolve_trans e1 (StEvolve_bump_failed stx))
            (ih _ _ _ _ _ _ h)
        · exact StEvolve_trans (StEvolve_trans e1 (StEvolve_dep_add stx doc rp))
            (ih _ _ _ _ _ _ h)
      · exact StEvolve_trans (StEvolve_trans e1 (StEvolve_bump_failed stx))
          (ih _ _ _ _ _ _ h)

/-- `resolve_document` evolves the state: the resolution stack is restored on every
exit, the hit/miss counters never decrease, and the non-empty-cache invariant is
preserved. -/
theorem resolve_document_evolve (env : Env) :
    ∀ (fuel : Nat) (st : RState) (doc html : String) (depth : Nat)
      (rh : String) (r : CallResult) (st' : RState),
      resolve_document env fuel st doc html depth = some (rh, r, st') →
      StEvolve st st' := by
  intro fuel
  induction fuel with
  | zero => intro st doc html depth rh r st' h; simp [resolve_document] at h
  | succ n ih =>
    intro st doc html depth rh r st' h
    unfold resolve_document at h
    split at h
    · simp only [Option.some.injEq, Prod.mk.injEq] at h
      rw [← h.2.2]
      exact StEvolve_refl st
    · split at h
      · simp only [Option.some.injEq, Prod.mk.injEq] at h
        rw [← h.2.2]
        exact ⟨rfl, le_refl _, le_refl _, id⟩
      · split at h
        · simp only [Option.some.injEq, Prod.mk.injEq] at h
          rw [← h.2.2]
          exact ⟨rfl, le_refl _, le_refl _, id⟩
        · split at h
          · simp at h
          · rename_i rh0 cs0 st2 heq
            have hrec : ∀ st' d' h' r,
                resolve_document env n st' d' h' (depth + 1) = some r →
                StEvolve st' r.2.2 := by
              intro st'' d'' h'' r' hr'
              exact ih st'' d'' h'' (depth + 1) r'.1 r'.2.1 r'.2.2 hr'
            have e1 : StEvolve (bump_total (push_stack doc st)) st2 :=
              resolve_loop_evolve env (resolve_document env n) doc (depth + 1) hrec
                (extract_references html) (bump_total (push_stack doc st)) html
                _ rh0 cs0 st2 heq
            simp only [Option.some.injEq, Prod.mk.injEq] at h
            rw [← h.2.2]
            refine ⟨?_, ?_, ?_, ?_⟩
            · show (pop_stack st2).resolution_stack = st.resolution_stack
              have hs : st2.resolution_stack =
                  (bump_total (push_stack doc st)).resolution_stack := e1.1
              simp [pop_stack, hs, bump_total, push_stack]
            · exact e1.2.1
            · exact e1.2.2.1
            · intro hc
              exact e1.2.2.2 hc

/-- Witness for C1 at a concrete world, state and fuel. -/
theorem resolve_document_terminates_witness :
    resolve_document env0 7 st0 "d" "x" 0 ≠ none :=
  resolve_document_terminates env0 7 st0 "d" "x" 0 (by decide)

/-- Claim C4: the entry guards of `resolve_document`.  With `depth > max_depth` the
input HTML is returned unchanged, flagged `max_depth_exceeded`, and the state is
returned untouched; with the document already on the resolution stack (and depth in
bounds) the input HTML is returned unchanged, flagged `circular_reference`, and the
only state change is the incremented lifetime `circular_references` counter. -/
theorem resolve_document_entry_guards (env : Env) (fuel : Nat) (st : RState)
    (doc html : String) (depth : Nat) :
    (env.max_depth < depth →
      resolve_document env (fuel + 1) st doc html depth =
        some (html, CallResult.err_max_depth, st)) ∧
    (depth ≤ env.max_depth → doc ∈ st.resolution_stack →
      resolve_document env (fuel + 1) st doc html depth =
        some (html, CallResult.err_circular,
          { st with stats := { st.stats with
              circular_references := st.stats.circular_references + 1 } })) := by
  constructor
  · intro h
    unfold resolve_document
    rw [if_pos h]
  · intro hd hm
    unfold resolve_document
    rw [if_neg (by omega), if_pos hm]
    rfl

/-- Witness for C4: both guards evaluated at concrete inputs (depth 6 > 5, and a
stack already holding the document). -/
theorem resolve_document_entry_guards_witness :
    resolve_document env0 1 st0 "d" "x" 6 = some ("x", CallResult.err_max_depth, st0) ∧
    resolve_document env0 1
        { cache := [], dependency_graph := [], resolution_stack := ["d"],
          stats := ⟨0, 0, 0, 0, 0⟩ } "d" "x" 0 =
      some ("x", CallResult.err_circular,
        { cache := [], dependency_graph := [], resolution_stack := ["d"],
          stats := ⟨0, 0, 0, 1, 0⟩ }) :=
  ⟨(resolve_document_entry_guards env0 0 st0 "d" "x" 6).1 (by decide),
   (resolve_document_entry_guards env0 0
      { cache := [], dependency_graph := [], resolution_stack := ["d"],
        stats := ⟨0, 0, 0, 0, 0⟩ } "d" "x" 0).2 (by decide) (by decide)⟩

/-- Claim C6: whatever `resolve_document` returns (normal loop exit, zero-reference
early return — and every Python exception path is converted to a return inside the
helpers), the resolution stack after the call equals the stack before it: the
identifier pushed past the guards is always popped by the `finally:` block. -/
theorem resolution_stack_restored (env : Env) (fuel : Nat) (st : RState)
    (doc html : String) (depth : Nat) (rh : String) (r : CallResult) (st' : RState)
    (hres : resolve_document env fuel st doc html depth = some (rh, r, st')) :
    st'.resolution_stack = st.resolution_stack :=
  (resolve_document_evolve env fuel st doc html depth rh r st' hres).1

/-- Witness for C6 on a concrete zero-reference call. -/
theorem resolution_stack_restored_witness :
    ({ cache := [], dependency_graph := [], resolution_stack := [],
       stats := ⟨0, 0, 1, 0, 0⟩ } : RState).resolution_stack = st0.resolution_stack :=
  resolution_stack_restored env0 1 st0 "d" "x" 0 "x" CallResult.no_references
    { cache := [], dependency_graph := [], resolution_stack := [],
      stats := ⟨0, 0, 1, 0, 0⟩ } (by decide)

/-- Claim C5: cache correctness of `_resolve_single_reference` (with the re-entrant
loader being the real `resolve_document`).  If a `(kind, identifier)` pair misses the
cache and resolves successfully to a non-empty fragment `v`, then afterwards the
cache holds `v` under the pair's key, the lifetime `cache_misses` counter was
incremented, the non-empty-cache invariant is preserved (only truthy results are ever
written), and a second resolution of the same pair — through any loader and depth —
returns the identical fragment `v`, changing nothing but the `cache_hits` counter,
which it increments. -/
theorem cache_hit_on_second_resolution (env : Env) (fuel : Nat) (st : RState)
    (rt : RefType) (rp : String) (depth : Nat) (v : String) (st₁ : RState)
    (hmiss : alookup (generate_cache_key rt rp) st.cache = none)
    (h1 : resolve_single_reference env (resolve_document env fuel) st rt rp depth =
      some (some v, st₁))
    (hv : v ≠ "") :
    alookup (generate_cache_key rt rp) st₁.cache = some v ∧
    st.stats.cache_misses + 1 ≤ st₁.stats.cache_misses ∧
    (cache_ok st → cache_ok st₁) ∧
    ∀ (recur2 : RecurFn) (d2 : Nat),
      resolve_single_reference env recur2 st₁ rt rp d2 =
        some (some v, bump_hits st₁) := by
  have hrec : ∀ st' d' h' r,
      resolve_document env fuel st' d' h' depth = some r → StEvolve st' r.2.2 := by
    intro st' d' h' r hr
    exact resolve_document_evolve env fuel st' d' h' depth r.1 r.2.1 r.2.2 hr
  unfold resolve_single_reference at h1
  rw [hmiss] at h1
  dsimp only at h1
  split at h1
  · simp at h1
  · rename_i rc0 st2 heq
    have e1 : StEvolve (bump_misses st) st2 :=
      dispatch_loader_evolve env (resolve_document env fuel) (bump_misses st) rt rp
        depth hrec rc0 st2 heq
    split at h1
    · rename_i w
      split at h1
      · rename_i hw
        simp only [Option.some.injEq, Prod.mk.injEq] at h1
        rw [hw] at h1
        exact absurd h1.1.symm hv
      · rename_i hw
        simp only [Option.some.injEq, Prod.mk.injEq] at h1
        obtain ⟨hwv, hst⟩ := h1
        subst hwv
        rw [← hst]
        refine ⟨alookup_ainsert _ _ _, e1.2.1, ?_, ?_⟩
        · intro hc
          exact (StEvolve_ainsert st2 _ _ hw).2.2.2 (e1.2.2.2 hc)
        · intro recur2 d2
          unfold resolve_single_reference
          dsimp only
          rw [alookup_ainsert]
    · simp at h1

/-- Witness for C5: a concrete miss-then-hit pair on `(double_curly, "X")` in the
world `envX`. -/
theorem cache_hit_on_second_resolution_witness :
    alookup (generate_cache_key RefType.double_curly "X")
      ({ cache := [("double_curly:X", "<p>hi</p>")], dependency_graph := [],
         resolution_stack := [], stats := ⟨0, 1, 0, 0, 0⟩ } : RState).cache =
      some "<p>hi</p>" ∧
    st0.stats.cache_misses + 1 ≤
      ({ cache := [("double_curly:X", "<p>hi</p>")], dependency_graph := [],
         resolution_stack := [], stats := ⟨0, 1, 0, 0, 0⟩ } : RState).stats.cache_misses ∧
    resolve_single_reference envX (resolve_document envX 3)
        { cache := [("double_curly:X", "<p>hi</p>")], dependency_graph := [],
          resolution_stack := [], stats := ⟨0, 1, 0, 0, 0⟩ }
        RefType.double_curly "X" 2 =
      some (some "<p>hi</p>",
        bump_hits
          { cache := [("double_curly:X", "<p>hi</p>")], dependency_graph := [],
            resolution_stack := [], stats := ⟨0, 1, 0, 0, 0⟩ }) := by
  have h := cache_hit_on_second_resolution envX 3 st0 RefType.double_curly "X" 1
    "<p>hi</p>"
    { cache := [("double_curly:X", "<p>hi</p>")], dependency_graph := [],
      resolution_stack := [], stats := ⟨0, 1, 0, 0, 0⟩ }
    (by decide) (by decide) (by decide)
  exact ⟨h.1, h.2.1, h.2.2.2 (resolve_document envX 3) 2⟩

/-- The reference loop never touches the `from_cache` field of the per-call
statistics dict. -/
theorem resolve_loop_preserves_from_cache (env : Env) (recur : RecurFn) (doc : String)
    (depth1 : Nat) :
    ∀ (refs : List (RefType × String)) (st : RState) (html : String) (cs : CallStats)
      (rh : String) (cs' : CallStats) (st' : RState),
      resolve_loop env recur doc depth1 refs st html cs = some (rh, cs', st') →
      cs'.from_cache = cs.from_cache := by
  intro refs
  induction refs with
  | nil =>
    intro st html cs rh cs' st' h
    simp only [resolve_loop, Option.some.injEq, Prod.mk.injEq] at h
    rw [← h.2.1]
  | cons hd tl ih =>
    intro st html cs rh cs' st' h
    obtain ⟨rt, rp⟩ := hd
    unfold resolve_loop at h
    split at h
    · simp at h
    · split at h
      · split at h
        · have h2 := ih _ _ _ _ _ _ h
          exact h2
        · have h2 := ih _ _ _ _ _ _ h
          exact h2
      · have h2 := ih _ _ _ _ _ _ h
        exact h2

/-- Claim C10: whenever `resolve_document` returns the full per-call statistics dict
(i.e. at least one reference was found), its `from_cache` field is `0`: the field is
initialised to zero and never incremented anywhere — cache reuse shows up only in the
lifetime `cache_hits` counter. -/
theorem from_cache_field_always_zero (env : Env) (fuel : Nat) (st : RState)
    (doc html : String) (depth : Nat) (rh : String) (cs : CallStats) (st' : RState)
    (hres : resolve_document env fuel st doc html depth =
      some (rh, CallResult.stats cs, st')) :
    cs.from_cache = 0 := by
  cases fuel with
  | zero => simp [resolve_document] at hres
  | succ n =>
    unfold resolve_document at hres
    split at hres
    · simp at hres
    · split at hres
      · simp at hres
      · split at hres
        · simp at hres
        · split at hres
          · simp at hres
          · rename_i rh0 cs0 st2 heq
            simp only [Option.some.injEq, Prod.mk.injEq, CallResult.stats.injEq] at hres
            rw [← hres.2.1]
            exact resolve_loop_preserves_from_cache env (resolve_document env n) doc
              (depth + 1) (extract_references html) _ html _ rh0 cs0 st2 heq

/-- Witness for C10: the concrete one-reference resolution of claim C3's input
returns `from_cache = 0` even though the per-call dict is present. -/
theorem from_cache_field_always_zero_witness :
    ({ references_found := 1, resolved := 1, failed := 0, from_cache := 0 }
      : CallStats).from_cache = 0 :=
  from_cache_field_always_zero envX 3 st0 "doc" "\x7b\x7bcontent:X\x7d\x7d" 0
    "\x7b\x7bcontent:X\x7d\x7d" ⟨1, 1, 0, 0⟩
    { cache := [("double_curly:X", "<p>hi</p>")],
      dependency_graph := [("doc", ["X"])],
      resolution_stack := [], stats := ⟨0, 1, 1, 0, 0⟩ } (by decide)
